import Mathlib

/-!
Verification development for the composition/bootstrap layer of the
rag-chatbot repository: the application assembler (`create_app` in
`private_gpt/launcher.py`) and the UI layout/state model
(`Tin/test/test_ui.py`).

Conventions of the shallow embedding:
  * Python objects with identity are modelled by records carrying a
    numeric id where object identity matters.
  * The process-wide llama-index settings object is modelled as an
    explicit `LlamaIndexGlobals` value threaded through `create_app`.
  * A raised exception is modelled as `Except.error` with the message.
-/

set_option autoImplicit false

namespace Launcher

/-- CORS configuration block, `settings.server.cors` in the source. -/
structure CorsSettings where
  enabled : Bool
  allow_credentials : Bool
  allow_origins : List String
  allow_origin_regex : Option String
  allow_methods : List String
  allow_headers : List String
deriving DecidableEq, Repr

/-- The `settings.server` block (only the CORS part is read by the launcher). -/
structure ServerSettings where
  cors : CorsSettings
deriving DecidableEq, Repr

/-- The `settings.ui` block read by the launcher: enabled flag and mount path. -/
structure UiSettings where
  enabled : Bool
  path : String
deriving DecidableEq, Repr

/-- The launcher reads `settings.server.cors` and `settings.ui`. -/
structure Settings where
  server : ServerSettings
  ui : UiSettings
deriving DecidableEq, Repr

/-- The `PrivateGptUi` instance obtained from the injector; the id stands
for Python object identity. -/
structure PrivateGptUi where
  uiId : Nat
deriving DecidableEq, Repr

/-- The `Injector` passed to `create_app`.  `injId` stands for the identity
of the Python `Injector` object; `settings` models `injector.get(Settings)`
and `ui` models `injector.get(PrivateGptUi)`. -/
structure Injector where
  injId : Nat
  settings : Settings
  ui : PrivateGptUi
deriving DecidableEq, Repr

/-- The seven feature routers included by `create_app`, one constructor per
`include_router` call site. -/
inductive RouterId where
  | completions_router
  | chat_router
  | chunks_router
  | ingest_router
  | summarize_router
  | embeddings_router
  | health_router
deriving DecidableEq, Repr

/-- Keyword arguments of the `app.add_middleware(CORSMiddleware, ...)` call. -/
structure CORSMiddleware where
  allow_credentials : Bool
  allow_origins : List String
  allow_origin_regex : Option String
  allow_methods : List String
  allow_headers : List String
deriving DecidableEq, Repr

/-- The observable shape of the assembled FastAPI application:
the injector captured by the request-binder dependency, the routers in
inclusion order, the CORS middlewares added, and the mounted UI
sub-applications with their paths. -/
structure FastAPIApp where
  dependencyInjectorId : Nat
  routers : List RouterId
  corsMiddlewares : List CORSMiddleware
  uiMounts : List (String × PrivateGptUi)
deriving DecidableEq, Repr

/-- A llama-index global callback handler; `create_global_handler "simple"`
yields the simple handler. -/
inductive GlobalHandler where
  | simple
deriving DecidableEq, Repr

/-- The `CallbackManager([...])` constructed by `create_app`. -/
structure CallbackManager where
  handlers : List GlobalHandler
deriving DecidableEq, Repr

/-- Process-wide mutable state outside the application handle that
`create_app` can reach: the llama-index `Settings.callback_manager`. -/
structure LlamaIndexGlobals where
  callback_manager : Option CallbackManager
deriving DecidableEq, Repr

/-- Model of `create_global_handler`: the launcher calls it with
`"simple"`, which produces the simple handler. -/
def create_global_handler (eval_mode : String) : Option GlobalHandler :=
  if eval_mode = "simple" then some GlobalHandler.simple else none

/-- Per-request mutable state, `request.state` in the source.  `requestId`
stands for the identity of the request; `injector` holds the id of the
injector object bound to the request, if any. -/
structure RequestState where
  requestId : Nat
  injector : Option Nat
deriving DecidableEq, Repr

/-- Model of `bind_injector_to_request`: the dependency closes over the
`root_injector` passed to `create_app` and assigns it (the very same
object) to `request.state.injector`. -/
def bind_injector_to_request (root_injector : Nat) (request : RequestState) :
    RequestState :=
  { request with injector := some root_injector }

/-- The error message raised when `settings.ui.enabled` holds but the UI
module cannot be imported. -/
def uiImportErrorMessage : String :=
  "UI dependencies not found, install with `poetry install --extras ui`"

/-- Model of `create_app`.  `uiModuleAvailable` states whether
`from private_gpt.ui.ui import PrivateGptUi` succeeds; `globals` is the
process-wide llama-index state on entry.  The function mirrors the source
statement by statement: build the app with the binder dependency, include
the seven routers in order, install the global handler into the global
callback manager, conditionally add the CORS middleware with the policy
fields verbatim, then conditionally resolve and mount the UI (raising on a
failed import). -/
def create_app (root_injector : Injector) (uiModuleAvailable : Bool)
    (globals : LlamaIndexGlobals) :
    Except String (FastAPIApp × LlamaIndexGlobals) :=
  let app : FastAPIApp :=
    { dependencyInjectorId := root_injector.injId
      routers := [RouterId.completions_router, RouterId.chat_router,
        RouterId.chunks_router, RouterId.ingest_router,
        RouterId.summarize_router, RouterId.embeddings_router,
        RouterId.health_router]
      corsMiddlewares := []
      uiMounts := [] }
  let globals :=
    match create_global_handler "simple" with
    | some h => { globals with callback_manager := some ⟨[h]⟩ }
    | none => globals
  let settings := root_injector.settings
  let app :=
    if settings.server.cors.enabled then
      { app with corsMiddlewares := app.corsMiddlewares ++
          [{ allow_credentials := settings.server.cors.allow_credentials
             allow_origins := settings.server.cors.allow_origins
             allow_origin_regex := settings.server.cors.allow_origin_regex
             allow_methods := settings.server.cors.allow_methods
             allow_headers := settings.server.cors.allow_headers }] }
    else app
  if settings.ui.enabled then
    if uiModuleAvailable then
      let ui := root_injector.ui
      Except.ok ({ app with uiMounts := app.uiMounts ++ [(settings.ui.path, ui)] },
        globals)
    else
      Except.error uiImportErrorMessage
  else
    Except.ok (app, globals)

/-- A sample CORS policy used by concrete witnesses. -/
def sampleCors : CorsSettings :=
  { enabled := false
    allow_credentials := false
    allow_origins := ["*"]
    allow_origin_regex := none
    allow_methods := ["*"]
    allow_headers := ["*"] }

/-- A sample injector (CORS disabled, UI disabled) used by concrete
witnesses. -/
def sampleInjector : Injector :=
  { injId := 7
    settings :=
      { server := { cors := sampleCors }
        ui := { enabled := false, path := "/" } }
    ui := { uiId := 3 } }

/-- A sample injector with CORS enabled and UI enabled, used by concrete
witnesses. -/
def sampleInjectorOn : Injector :=
  { injId := 8
    settings :=
      { server := { cors := { sampleCors with enabled := true } }
        ui := { enabled := true, path := "/ui" } }
    ui := { uiId := 4 } }

end Launcher

namespace Ui

/-- Available modes for the Private GPT UI (`Modes` enum in the source). -/
inductive Modes where
  | RAG_MODE
  | SEARCH_MODE
  | BASIC_CHAT_MODE
  | SUMMARIZE_MODE
deriving DecidableEq, Repr

/-- The `MODES` list from the source, in declaration order. -/
def MODES : List Modes :=
  [Modes.RAG_MODE, Modes.SEARCH_MODE, Modes.BASIC_CHAT_MODE, Modes.SUMMARIZE_MODE]

/-- An ingested file as the spec describes it: a display name plus an
internal reference. -/
structure IngestedFile where
  display_name : String
  internal_reference : String
deriving DecidableEq, Repr

/-- The current selection: the sentinel for all files, or one file. -/
inductive Selection where
  | all
  | file (f : IngestedFile)
deriving DecidableEq, Repr

/-- Whether the selection is the sentinel for all files. -/
def Selection.isAll : Selection → Bool
  | Selection.all => true
  | Selection.file _ => false

/-- The interactive controls declared by `PrivateGptUi._build_ui_blocks`,
one constructor per component that an event binding can read or write. -/
inductive ControlId where
  | mode_radio
  | explanation_mode
  | upload_button
  | ingested_dataset
  | deselect_file_button
  | selected_text
  | delete_file_button
  | delete_files_button
  | system_prompt_input
  | sidebar_left
  | sidebar_state
  | btn_toggle_sidebar
deriving DecidableEq, Repr

/-- The interactivity each control is created with, read off the keyword
arguments in `_build_ui_blocks`: the mode radio and the system prompt are
interactive, the explanation box, the dataset list, the selected-file text,
the delete-one button and the deselect button are created non-interactive,
and the delete-all button is created with no interactive argument, hence
enabled. -/
def createdInteractive : ControlId → Bool
  | ControlId.mode_radio => true
  | ControlId.explanation_mode => false
  | ControlId.upload_button => true
  | ControlId.ingested_dataset => false
  | ControlId.deselect_file_button => false
  | ControlId.selected_text => false
  | ControlId.delete_file_button => false
  | ControlId.delete_files_button => true
  | ControlId.system_prompt_input => true
  | ControlId.sidebar_left => true
  | ControlId.sidebar_state => true
  | ControlId.btn_toggle_sidebar => true

/-- The output lists of the nine event bindings wired in
`_build_ui_blocks`, in source order: upload, dataset change, deselect
click, dataset select, delete-one click, delete-all click, mode change,
system-prompt blur (no outputs), sidebar toggle click.  A binding can only
update the components named in its output list. -/
def eventOutputs : List (List ControlId) :=
  [ [ControlId.ingested_dataset],
    [ControlId.ingested_dataset],
    [ControlId.delete_file_button, ControlId.deselect_file_button,
      ControlId.selected_text],
    [ControlId.delete_file_button, ControlId.deselect_file_button,
      ControlId.selected_text],
    [ControlId.ingested_dataset, ControlId.delete_file_button,
      ControlId.deselect_file_button, ControlId.selected_text],
    [ControlId.ingested_dataset, ControlId.delete_file_button,
      ControlId.deselect_file_button, ControlId.selected_text],
    [ControlId.system_prompt_input, ControlId.explanation_mode],
    [],
    [ControlId.sidebar_left, ControlId.sidebar_state] ]

/-- Effect of one event firing on the interactivity map: controls in the
output list take whatever interactivity the handler returns for them,
controls outside it are untouched. -/
def applyOutputs (outs : List ControlId) (upd : ControlId → Bool)
    (m : ControlId → Bool) : ControlId → Bool :=
  fun c => if c ∈ outs then upd c else m c

/-- Run a sequence of event firings, each given by the output list of the
binding that fired and the interactivity values its handler returned. -/
def runFirings (fs : List (List ControlId × (ControlId → Bool)))
    (m : ControlId → Bool) : ControlId → Bool :=
  fs.foldl (fun m p => applyOutputs p.1 p.2 m) m

/-- The value returned by `gr.update(visible=state)`. -/
structure GrUpdate where
  visible : Bool
deriving DecidableEq, Repr

/-- Model of `toggle_sidebar` from the source: negate the stored flag and
return the visibility update for the sidebar column together with the new
flag. -/
def toggle_sidebar (state : Bool) : GrUpdate × Bool :=
  let state := !state
  (⟨state⟩, state)

/-- The session state of the UI: chosen mode, ingested files, current
selection, the interactivity of the two selection-dependent buttons and of
the delete-all button, the selected-file display text, the stored sidebar
flag (`sidebar_state`) and the rendered visibility of the sidebar column
(`sidebar_left`). -/
structure UIState where
  mode : Option Modes
  files : List IngestedFile
  selection : Selection
  deleteOneEnabled : Bool
  deselectEnabled : Bool
  deleteAllEnabled : Bool
  selectedText : String
  sidebarVisible : Bool
  sidebarRendered : Bool
deriving DecidableEq, Repr

/-- The initial session state, read off the component declarations: no
mode chosen, no files, selection is the sentinel, delete-one and deselect
created non-interactive, delete-all created enabled, selected text is
"All files", `sidebar_state` is created as `gr.State(False)` and the
sidebar column as `visible=False`. -/
def initUIState : UIState :=
  { mode := none
    files := []
    selection := Selection.all
    deleteOneEnabled := false
    deselectEnabled := false
    deleteAllEnabled := true
    selectedText := "All files"
    sidebarVisible := false
    sidebarRendered := false }

/-- Effect of the source binding
`btn_toggle_sidebar.click(toggle_sidebar, [sidebar_state], [sidebar_left, sidebar_state])`:
the handler reads the stored flag and its two outputs update the rendered
visibility of the sidebar column and the stored flag. -/
def applyToggleSidebar (s : UIState) : UIState :=
  let r := toggle_sidebar s.sidebarVisible
  { s with sidebarRendered := r.1.visible, sidebarVisible := r.2 }

/-- The IngestedFile created for one uploaded path; the path serves as
both display name and internal reference. -/
def ingestedFileOfPath (path : String) : IngestedFile :=
  ⟨path, path⟩

/-- Modelled from the spec: the handler bound to `upload_button.upload` is
absent from the source (the binding has no function argument).  Per the
spec, UploadFiles(paths) appends one IngestedFile per path to the files,
preserving order, and does not change the selection. -/
def uploadFiles (paths : List String) (s : UIState) : UIState :=
  { s with files := s.files ++ paths.map ingestedFileOfPath }

/-- Modelled from the spec: the handler bound to `ingested_dataset.select`
is absent from the source.  Per the spec, selecting a file sets the
selection to it, enables the delete-one and deselect controls, and shows
the display name. -/
def selectFile (f : IngestedFile) (s : UIState) : UIState :=
  { s with selection := Selection.file f
           deleteOneEnabled := true
           deselectEnabled := true
           selectedText := f.display_name }

/-- Modelled from the spec: the handler bound to
`deselect_file_button.click` is absent from the source.  Per the spec,
deselecting resets the selection to the sentinel, disables the delete-one
and deselect controls, and resets the display text. -/
def deselectFile (s : UIState) : UIState :=
  { s with selection := Selection.all
           deleteOneEnabled := false
           deselectEnabled := false
           selectedText := "All files" }

/-- Result reported by the external deletion collaborator. -/
inductive CollabResult where
  | success
  | failure
deriving DecidableEq, Repr

/-- Modelled from the spec: the handler bound to `delete_file_button.click`
is absent from the source.  Per the spec, with a live selection and a
successful collaborator call the referenced file is removed, the selection
resets to the sentinel, both selection-dependent controls are disabled and
the display text resets; on a failed call, or without a live selection,
the state is unchanged. -/
def deleteSelected (result : CollabResult) (s : UIState) : UIState :=
  match s.selection, result with
  | Selection.file f, CollabResult.success =>
      { s with files := s.files.erase f
               selection := Selection.all
               deleteOneEnabled := false
               deselectEnabled := false
               selectedText := "All files" }
  | _, _ => s

/-- Modelled from the spec: the handler bound to `delete_files_button.click`
is absent from the source.  Per the spec, on success every file is removed,
the selection resets to the sentinel, the selection-dependent controls are
disabled and the display text resets; on failure the state is unchanged. -/
def deleteAll (result : CollabResult) (s : UIState) : UIState :=
  match result with
  | CollabResult.success =>
      { s with files := []
               selection := Selection.all
               deleteOneEnabled := false
               deselectEnabled := false
               selectedText := "All files" }
  | CollabResult.failure => s

/-- The user-triggered events of the file-management state machine.  A
select event carries the index of the clicked row of the rendered file
list, so it can only reference a present file. -/
inductive UIEvent where
  | upload (paths : List String)
  | selectIdx (i : Nat)
  | deselect
  | delSelected (result : CollabResult)
  | delAll (result : CollabResult)
deriving Repr

/-- One step of the state machine: dispatch an event to its transition. -/
def stepUI (e : UIEvent) (s : UIState) : UIState :=
  match e with
  | UIEvent.upload paths => uploadFiles paths s
  | UIEvent.selectIdx i =>
      match s.files.get? i with
      | some f => selectFile f s
      | none => s
  | UIEvent.deselect => deselectFile s
  | UIEvent.delSelected r => deleteSelected r s
  | UIEvent.delAll r => deleteAll r s

/-- Run a sequence of events from a state. -/
def runUI (events : List UIEvent) (s : UIState) : UIState :=
  events.foldl (fun s e => stepUI e s) s

/-- The selection references a present file or is the sentinel. -/
def selectionOk (s : UIState) : Prop :=
  match s.selection with
  | Selection.all => True
  | Selection.file f => f ∈ s.files

/-- The selection-dependent controls are enabled exactly when the
selection is live. -/
def controlsOk (s : UIState) : Prop :=
  s.deleteOneEnabled = !s.selection.isAll ∧
  s.deselectEnabled = !s.selection.isAll

/-- The controller invariant: no dangling selection, and enablement of the
delete-one and deselect controls tracks the selection. -/
def uiInvariant (s : UIState) : Prop :=
  selectionOk s ∧ controlsOk s

end Ui

namespace Launcher

/-- The nine routers in the inclusion order of the source. -/
def routerOrder : List RouterId :=
  [RouterId.completions_router, RouterId.chat_router, RouterId.chunks_router,
    RouterId.ingest_router, RouterId.summarize_router,
    RouterId.embeddings_router, RouterId.health_router]

/-- The CORS middleware built from a policy, field by field. -/
def corsMiddlewareOf (c : CorsSettings) : CORSMiddleware :=
  { allow_credentials := c.allow_credentials
    allow_origins := c.allow_origins
    allow_origin_regex := c.allow_origin_regex
    allow_methods := c.allow_methods
    allow_headers := c.allow_headers }

/-- The globals after assembly: the callback manager holds the simple
global handler. -/
def globalsAfter : LlamaIndexGlobals :=
  ⟨some ⟨[GlobalHandler.simple]⟩⟩

/-- The application produced by a successful assembly, as a function of
the injector and the UI flag. -/
def assembledApp (inj : Injector) : FastAPIApp :=
  { dependencyInjectorId := inj.injId
    routers := routerOrder
    corsMiddlewares :=
      if inj.settings.server.cors.enabled then
        [corsMiddlewareOf inj.settings.server.cors]
      else []
    uiMounts :=
      if inj.settings.ui.enabled then [(inj.settings.ui.path, inj.ui)]
      else [] }

end Launcher

open Launcher Ui

/-- Closed form of `create_app`: assembly fails exactly when the UI is
enabled but its module does not import, and otherwise returns the
assembled application together with the updated globals. -/
theorem create_app_eq (inj : Injector) (avail : Bool) (g : LlamaIndexGlobals) :
    create_app inj avail g =
      if inj.settings.ui.enabled ∧ avail = false then
        Except.error uiImportErrorMessage
      else
        Except.ok (assembledApp inj, globalsAfter) := by
  cases hc : inj.settings.server.cors.enabled <;>
    cases hu : inj.settings.ui.enabled <;>
      cases avail <;>
        simp [create_app, create_global_handler, assembledApp, globalsAfter,
          routerOrder, corsMiddlewareOf, hc, hu]

/-- C1: stated claim, refuted — the binder does not attach a fresh context
object per request.  It assigns the one `root_injector` closed over by
`create_app` to every request, so two distinct requests are bound to the
same injector object. -/
theorem c1_fresh_context_counterexample :
    ¬ (∀ (root : Nat) (r1 r2 : RequestState), r1 ≠ r2 →
        (bind_injector_to_request root r1).injector ≠
          (bind_injector_to_request root r2).injector) := by
  intro h
  exact h 7 ⟨1, none⟩ ⟨2, none⟩ (by decide) rfl

/-- C1 (amended): the binder writes into each request's own state slot,
preserving the request's identity, but the context instance it binds is
the single shared root injector — every request receives the very same
injector object, not a fresh one. -/
theorem c1_shared_root_injector (root : Nat) (r1 r2 : RequestState) :
    (bind_injector_to_request root r1).injector = some root ∧
    (bind_injector_to_request root r1).injector =
      (bind_injector_to_request root r2).injector ∧
    (bind_injector_to_request root r1).requestId = r1.requestId :=
  ⟨rfl, rfl, rfl⟩

/-- C2: stated claim, refuted — assembly does modify global state outside
the returned application handle: it installs the simple global handler
into the process-wide llama-index callback manager, so the globals after
a successful `create_app` differ from the globals before. -/
theorem c2_no_global_effect_counterexample :
    ¬ (∀ (inj : Injector) (avail : Bool) (g : LlamaIndexGlobals)
        (app : FastAPIApp) (gAfter : LlamaIndexGlobals),
        create_app inj avail g = Except.ok (app, gAfter) → gAfter = g) := by
  intro h
  have hg := h sampleInjector true ⟨none⟩ (assembledApp sampleInjector)
    globalsAfter (by rw [create_app_eq]; simp [sampleInjector, sampleCors])
  exact absurd hg (by decide)

/-- Frame of a successful assembly: the globals change to the simple
callback manager, and the application is fully characterised by the
injector. -/
theorem create_app_ok_frame (inj : Injector) (avail : Bool)
    (g : LlamaIndexGlobals) (app : FastAPIApp) (gAfter : LlamaIndexGlobals)
    (h : create_app inj avail g = Except.ok (app, gAfter)) :
    gAfter = globalsAfter ∧
    app.dependencyInjectorId = inj.injId ∧
    app.routers = routerOrder ∧
    app.corsMiddlewares =
      (if inj.settings.server.cors.enabled then
        [corsMiddlewareOf inj.settings.server.cors]
      else []) ∧
    app.uiMounts =
      (if inj.settings.ui.enabled then [(inj.settings.ui.path, inj.ui)]
      else []) := by
  rw [create_app_eq] at h
  split at h
  · exact absurd h (by simp)
  · obtain ⟨ha, hg⟩ := by simpa using h
    subst hg
    refine ⟨rfl, ?_, ?_, ?_, ?_⟩ <;> rw [← ha] <;> rfl

/-- C2 (amended): assembly binds zero or one CORS middleware, mounts the
seven routers, optionally mounts one UI sub-application, and additionally
sets the process-wide llama-index callback manager to a manager holding
the simple global handler; nothing else changes. -/
theorem c2_frame (inj : Injector) (avail : Bool) (g : LlamaIndexGlobals)
    (app : FastAPIApp) (gAfter : LlamaIndexGlobals)
    (h : create_app inj avail g = Except.ok (app, gAfter)) :
    gAfter = globalsAfter ∧
    app.dependencyInjectorId = inj.injId ∧
    app.routers = routerOrder ∧
    app.corsMiddlewares =
      (if inj.settings.server.cors.enabled then
        [corsMiddlewareOf inj.settings.server.cors]
      else []) ∧
    app.uiMounts =
      (if inj.settings.ui.enabled then [(inj.settings.ui.path, inj.ui)]
      else []) :=
  create_app_ok_frame inj avail g app gAfter h

/-- C2 (amended) at a concrete input: assembling with the sample injector
from empty globals yields exactly the characterised application and the
callback-manager update. -/
theorem c2_frame_witness :
    globalsAfter = globalsAfter ∧
    (assembledApp sampleInjector).dependencyInjectorId = sampleInjector.injId ∧
    (assembledApp sampleInjector).routers = routerOrder ∧
    (assembledApp sampleInjector).corsMiddlewares =
      (if sampleInjector.settings.server.cors.enabled then
        [corsMiddlewareOf sampleInjector.settings.server.cors]
      else []) ∧
    (assembledApp sampleInjector).uiMounts =
      (if sampleInjector.settings.ui.enabled then
        [(sampleInjector.settings.ui.path, sampleInjector.ui)]
      else []) :=
  c2_frame sampleInjector true ⟨none⟩ (assembledApp sampleInjector)
    globalsAfter (by rw [create_app_eq]; simp [sampleInjector, sampleCors])

/-- C3: with the UI enabled, assembly with an unresolvable UI module
raises the descriptive dependency error and returns no application
handle, while a resolvable module leads to the UI being mounted at the
configured path; with the UI disabled, no UI sub-application is mounted
at any path. -/
theorem c3_ui_gating (inj : Injector) (g : LlamaIndexGlobals) :
    (inj.settings.ui.enabled = true →
      create_app inj false g = Except.error uiImportErrorMessage) ∧
    (inj.settings.ui.enabled = true →
      ∀ (app : FastAPIApp) (gAfter : LlamaIndexGlobals),
        create_app inj true g = Except.ok (app, gAfter) →
        app.uiMounts = [(inj.settings.ui.path, inj.ui)]) ∧
    (inj.settings.ui.enabled = false →
      ∀ (avail : Bool) (app : FastAPIApp) (gAfter : LlamaIndexGlobals),
        create_app inj avail g = Except.ok (app, gAfter) →
        app.uiMounts = []) := by
  refine ⟨fun hu => ?_, fun hu app gAfter h => ?_, fun hu avail app gAfter h => ?_⟩
  · rw [create_app_eq]
    simp [hu]
  · have hm := (create_app_ok_frame inj true g app gAfter h).2.2.2.2
    rw [hu] at hm
    simpa using hm
  · have hm := (create_app_ok_frame inj avail g app gAfter h).2.2.2.2
    rw [hu] at hm
    simpa using hm

/-- C3 at concrete inputs: with the UI-enabled sample injector, an
unavailable UI module makes assembly return the import error; an
available one mounts the UI at the configured path; and with the
UI-disabled sample injector nothing is mounted. -/
theorem c3_ui_gating_witness :
    create_app sampleInjectorOn false ⟨none⟩ =
      Except.error uiImportErrorMessage ∧
    (assembledApp sampleInjectorOn).uiMounts =
      [(sampleInjectorOn.settings.ui.path, sampleInjectorOn.ui)] ∧
    (assembledApp sampleInjector).uiMounts = [] := by
  refine ⟨(c3_ui_gating sampleInjectorOn ⟨none⟩).1 rfl, ?_, ?_⟩
  · exact (c3_ui_gating sampleInjectorOn ⟨none⟩).2.1 rfl
      (assembledApp sampleInjectorOn) globalsAfter
      (by rw [create_app_eq]; simp [sampleInjectorOn])
  · exact (c3_ui_gating sampleInjector ⟨none⟩).2.2 rfl true
      (assembledApp sampleInjector) globalsAfter
      (by rw [create_app_eq]; simp [sampleInjector])

/-- C4: a successfully assembled application carries a CORS middleware
exactly when the policy is enabled, and that middleware takes the five
policy fields verbatim; with the policy disabled no CORS middleware is
attached. -/
theorem c4_cors_middleware (inj : Injector) (avail : Bool)
    (g : LlamaIndexGlobals) (app : FastAPIApp) (gAfter : LlamaIndexGlobals)
    (h : create_app inj avail g = Except.ok (app, gAfter)) :
    app.corsMiddlewares =
      if inj.settings.server.cors.enabled then
        [{ allow_credentials := inj.settings.server.cors.allow_credentials
           allow_origins := inj.settings.server.cors.allow_origins
           allow_origin_regex := inj.settings.server.cors.allow_origin_regex
           allow_methods := inj.settings.server.cors.allow_methods
           allow_headers := inj.settings.server.cors.allow_headers }]
      else [] :=
  (create_app_ok_frame inj avail g app gAfter h).2.2.2.1

/-- C4 at a concrete input: the sample injector with CORS enabled and a
wildcard origin yields exactly one middleware carrying that origin, taken
verbatim from the policy. -/
theorem c4_cors_middleware_witness :
    (assembledApp sampleInjectorOn).corsMiddlewares =
      if sampleInjectorOn.settings.server.cors.enabled then
        [{ allow_credentials :=
             sampleInjectorOn.settings.server.cors.allow_credentials
           allow_origins := sampleInjectorOn.settings.server.cors.allow_origins
           allow_origin_regex :=
             sampleInjectorOn.settings.server.cors.allow_origin_regex
           allow_methods := sampleInjectorOn.settings.server.cors.allow_methods
           allow_headers :=
             sampleInjectorOn.settings.server.cors.allow_headers }]
      else [] :=
  c4_cors_middleware sampleInjectorOn true ⟨none⟩
    (assembledApp sampleInjectorOn) globalsAfter
    (by rw [create_app_eq]; simp [sampleInjectorOn])

/-- C5: every successfully assembled application mounts the routers in
exactly the fixed order completions, chat, chunks, ingest, summarize,
embeddings, health, independently of the injector, the UI availability
and the prior globals — hence deterministically. -/
theorem c5_router_order (inj : Injector) (avail : Bool)
    (g : LlamaIndexGlobals) (app : FastAPIApp) (gAfter : LlamaIndexGlobals)
    (h : create_app inj avail g = Except.ok (app, gAfter)) :
    app.routers =
      [RouterId.completions_router, RouterId.chat_router,
        RouterId.chunks_router, RouterId.ingest_router,
        RouterId.summarize_router, RouterId.embeddings_router,
        RouterId.health_router] :=
  (create_app_ok_frame inj avail g app gAfter h).2.2.1

/-- C5 at a concrete input: the sample assembly carries the seven routers
in the fixed order. -/
theorem c5_router_order_witness :
    (assembledApp sampleInjector).routers =
      [RouterId.completions_router, RouterId.chat_router,
        RouterId.chunks_router, RouterId.ingest_router,
        RouterId.summarize_router, RouterId.embeddings_router,
        RouterId.health_router] :=
  c5_router_order sampleInjector true ⟨none⟩ (assembledApp sampleInjector)
    globalsAfter (by rw [create_app_eq]; simp [sampleInjector])

/-- The no-dangling-selection invariant, spelt as an implication. -/
theorem selectionOk_def (s : UIState) :
    selectionOk s ↔
      ∀ f : IngestedFile, s.selection = Selection.file f → f ∈ s.files := by
  unfold selectionOk
  cases hs : s.selection <;> simp [hs]

/-- One step of the UI state machine preserves the controller invariant. -/
theorem stepUI_invariant (e : UIEvent) (s : UIState) (h : uiInvariant s) :
    uiInvariant (stepUI e s) := by
  obtain ⟨hsel, hone, hdes⟩ := h
  cases e with
  | upload paths =>
      refine ⟨?_, hone, hdes⟩
      rw [selectionOk_def] at hsel ⊢
      intro f hf
      exact List.mem_append_left _ (hsel f hf)
  | selectIdx i =>
      have hstep : stepUI (UIEvent.selectIdx i) s =
          match s.files.get? i with
          | some f => selectFile f s
          | none => s := rfl
      cases hg : s.files.get? i with
      | none =>
          rw [hstep, hg]
          exact ⟨hsel, hone, hdes⟩
      | some f =>
          rw [hstep, hg]
          refine ⟨?_, rfl, rfl⟩
          rw [selectionOk_def]
          intro g hgf
          have hfg : f = g := by simpa [selectFile] using hgf
          subst hfg
          exact List.get?_mem hg
  | deselect => exact ⟨trivial, rfl, rfl⟩
  | delSelected r =>
      cases r with
      | failure =>
          have heq : stepUI (UIEvent.delSelected CollabResult.failure) s = s := by
            cases hs : s.selection <;> simp [stepUI, deleteSelected, hs]
          rw [heq]
          exact ⟨hsel, hone, hdes⟩
      | success =>
          cases hs : s.selection with
          | all =>
              have heq : stepUI (UIEvent.delSelected CollabResult.success) s = s := by
                simp [stepUI, deleteSelected, hs]
              rw [heq]
              exact ⟨hsel, hone, hdes⟩
          | file f =>
              have heq : stepUI (UIEvent.delSelected CollabResult.success) s =
                  { s with files := s.files.erase f
                           selection := Selection.all
                           deleteOneEnabled := false
                           deselectEnabled := false
                           selectedText := "All files" } := by
                simp [stepUI, deleteSelected, hs]
              rw [heq]
              exact ⟨trivial, rfl, rfl⟩
  | delAll r =>
      cases r with
      | failure => exact ⟨hsel, hone, hdes⟩
      | success => exact ⟨trivial, rfl, rfl⟩

/-- Running any event sequence preserves the controller invariant. -/
theorem runUI_invariant (events : List UIEvent) (s : UIState)
    (h : uiInvariant s) : uiInvariant (runUI events s) := by
  induction events generalizing s with
  | nil => exact h
  | cons e es ih => exact ih (stepUI e s) (stepUI_invariant e s h)

/-- The initial state satisfies the controller invariant. -/
theorem initUIState_invariant : uiInvariant initUIState :=
  ⟨trivial, rfl, rfl⟩

/-- C7: after every sequence of transitions from the initial state, the
selection is the sentinel or references a file present in the list, and
the delete-one and deselect controls are enabled exactly when the
selection is not the sentinel. -/
theorem c7_no_dangling_selection (events : List UIEvent) :
    uiInvariant (runUI events initUIState) :=
  runUI_invariant events initUIState initUIState_invariant

/-- C6: with a live selection, a successful DeleteSelected removes exactly
the referenced file, resets the selection to the sentinel, disables the
delete-one and deselect controls and resets the display text; a failed
external deletion leaves the whole controller state untouched. -/
theorem c6_delete_selected_atomic (s : UIState) (f : IngestedFile)
    (h : s.selection = Selection.file f) :
    (deleteSelected CollabResult.success s).files = s.files.erase f ∧
    (deleteSelected CollabResult.success s).selection = Selection.all ∧
    (deleteSelected CollabResult.success s).deleteOneEnabled = false ∧
    (deleteSelected CollabResult.success s).deselectEnabled = false ∧
    (deleteSelected CollabResult.success s).selectedText = "All files" ∧
    deleteSelected CollabResult.failure s = s := by
  simp [deleteSelected, h]

/-- The state used to witness C6: one uploaded file which is selected. -/
def c6SampleState : UIState :=
  selectFile (ingestedFileOfPath "a.pdf") (uploadFiles ["a.pdf"] initUIState)

/-- C6 at a concrete input: deleting the selected single file empties the
list and resets selection, controls and text, and a failed deletion leaves
the state unchanged. -/
theorem c6_delete_selected_atomic_witness :
    (deleteSelected CollabResult.success c6SampleState).files =
      c6SampleState.files.erase (ingestedFileOfPath "a.pdf") ∧
    (deleteSelected CollabResult.success c6SampleState).selection =
      Selection.all ∧
    (deleteSelected CollabResult.success c6SampleState).deleteOneEnabled =
      false ∧
    (deleteSelected CollabResult.success c6SampleState).deselectEnabled =
      false ∧
    (deleteSelected CollabResult.success c6SampleState).selectedText =
      "All files" ∧
    deleteSelected CollabResult.failure c6SampleState = c6SampleState :=
  c6_delete_selected_atomic c6SampleState (ingestedFileOfPath "a.pdf") rfl

/-- C8: uploading appends exactly one IngestedFile per path, in path
order, and leaves the selection untouched; in particular uploading
a.pdf and b.pdf into the initial state gives those two files with the
selection still the sentinel and the delete-one control still disabled. -/
theorem c8_upload_appends :
    (∀ (s : UIState) (paths : List String),
        (uploadFiles paths s).files =
          s.files ++ paths.map ingestedFileOfPath ∧
        (uploadFiles paths s).selection = s.selection) ∧
    (uploadFiles ["a.pdf", "b.pdf"] initUIState).files =
      [ingestedFileOfPath "a.pdf", ingestedFileOfPath "b.pdf"] ∧
    (uploadFiles ["a.pdf", "b.pdf"] initUIState).selection = Selection.all ∧
    (uploadFiles ["a.pdf", "b.pdf"] initUIState).deleteOneEnabled = false :=
  ⟨fun _ _ => ⟨rfl, rfl⟩, rfl, rfl, rfl⟩

/-- C9: toggling the sidebar negates the stored flag, renders the sidebar
with exactly the new flag, and changes nothing else (mode, files,
selection and every other component are untouched); the stored flag starts
out false. -/
theorem c9_toggle_sidebar :
    (∀ s : UIState,
        applyToggleSidebar s =
          { s with sidebarVisible := !s.sidebarVisible
                   sidebarRendered := !s.sidebarVisible } ∧
        (applyToggleSidebar s).mode = s.mode ∧
        (applyToggleSidebar s).files = s.files ∧
        (applyToggleSidebar s).selection = s.selection ∧
        (applyToggleSidebar s).sidebarRendered =
          (applyToggleSidebar s).sidebarVisible) ∧
    initUIState.sidebarVisible = false :=
  ⟨fun _ => ⟨rfl, rfl, rfl, rfl, rfl⟩, rfl⟩

/-- No event binding of the layout lists the delete-all button among its
outputs. -/
theorem delete_all_not_in_outputs (outs : List ControlId)
    (hp : outs ∈ eventOutputs) : ControlId.delete_files_button ∉ outs := by
  simp only [eventOutputs, List.mem_cons, List.not_mem_nil, or_false] at hp
  rcases hp with h | h | h | h | h | h | h | h | h <;> subst h <;> decide

/-- Firing any sequence of the layout's bindings keeps the delete-all
button interactive, since no binding outputs to it. -/
theorem runFirings_keeps_delete_all (fs : List (List ControlId × (ControlId → Bool)))
    (m : ControlId → Bool)
    (hm : m ControlId.delete_files_button = true)
    (hfs : ∀ p, p ∈ fs → p.1 ∈ eventOutputs) :
    runFirings fs m ControlId.delete_files_button = true := by
  induction fs generalizing m with
  | nil => exact hm
  | cons p fs ih =>
      refine ih (applyOutputs p.1 p.2 m) ?_ ?_
      · have hnot : ControlId.delete_files_button ∉ p.1 :=
          delete_all_not_in_outputs p.1 (hfs p (List.mem_cons_self p fs))
        unfold applyOutputs
        simp [hnot, hm]
      · intro q hq
        exact hfs q (List.mem_cons_of_mem p hq)

/-- No transition of the state machine touches the delete-all flag. -/
theorem stepUI_deleteAllEnabled (e : UIEvent) (s : UIState) :
    (stepUI e s).deleteAllEnabled = s.deleteAllEnabled := by
  cases e with
  | upload paths => rfl
  | selectIdx i =>
      have hstep : stepUI (UIEvent.selectIdx i) s =
          match s.files.get? i with
          | some f => selectFile f s
          | none => s := rfl
      cases hg : s.files.get? i <;> rw [hstep, hg]
      rfl
  | deselect => rfl
  | delSelected r =>
      cases hs : s.selection <;> cases r <;> simp [stepUI, deleteSelected, hs]
  | delAll r => cases r <;> rfl

/-- Running any event sequence leaves the delete-all flag unchanged. -/
theorem runUI_deleteAllEnabled (events : List UIEvent) (s : UIState) :
    (runUI events s).deleteAllEnabled = s.deleteAllEnabled := by
  induction events generalizing s with
  | nil => rfl
  | cons e es ih =>
      have hstep : runUI (e :: es) s = runUI es (stepUI e s) := rfl
      rw [hstep, ih, stepUI_deleteAllEnabled]

/-- C10: the delete-all button is created interactive, no event binding
lists it among its outputs, every sequence of binding firings leaves it
interactive, and the delete-all transition stays available in every
reachable state, the initial one included. -/
theorem c10_delete_all_always_enabled :
    createdInteractive ControlId.delete_files_button = true ∧
    (∀ outs, outs ∈ eventOutputs → ControlId.delete_files_button ∉ outs) ∧
    (∀ fs : List (List ControlId × (ControlId → Bool)),
        (∀ p, p ∈ fs → p.1 ∈ eventOutputs) →
        runFirings fs createdInteractive ControlId.delete_files_button = true) ∧
    (∀ events : List UIEvent,
        (runUI events initUIState).deleteAllEnabled = true) := by
  refine ⟨rfl, delete_all_not_in_outputs, ?_, ?_⟩
  · intro fs hfs
    exact runFirings_keeps_delete_all fs createdInteractive rfl hfs
  · intro events
    rw [runUI_deleteAllEnabled]
    rfl

/-- C10 at concrete inputs: the delete-one click binding does not name the
delete-all button, a concrete firing of that binding which disables every
control it can reach leaves the delete-all button interactive, and after a
successful delete-all on the empty initial state the button is still
enabled. -/
theorem c10_delete_all_always_enabled_witness :
    (ControlId.delete_files_button ∉
      [ControlId.ingested_dataset, ControlId.delete_file_button,
        ControlId.deselect_file_button, ControlId.selected_text]) ∧
    runFirings [([ControlId.ingested_dataset, ControlId.delete_file_button,
        ControlId.deselect_file_button, ControlId.selected_text],
      fun _ => false)] createdInteractive ControlId.delete_files_button =
      true ∧
    (runUI [UIEvent.delAll CollabResult.success] initUIState).deleteAllEnabled =
      true := by
  refine ⟨c10_delete_all_always_enabled.2.1 _ (by decide),
    c10_delete_all_always_enabled.2.2.1 _ ?_,
    c10_delete_all_always_enabled.2.2.2 [UIEvent.delAll CollabResult.success]⟩
  intro p hp
  rw [List.mem_singleton] at hp
  subst hp
  decide
